import Mathlib

/-!
# Verification of the frame-lut LUT-processing service

Shallow embedding of the core components of the `frame-lut` repository
(TypeScript) in Lean 4, together with proofs of the behavioural claims
about them:

* the request-authenticity verifier (`verifySignature.ts`),
* the LUT registry (`lutService.ts`: validation, creation, deletion),
* the filter-graph builder (`applyLUT.ts`: `buildLUTFilterGraph`),
* the transcode-progress runner (`runFFmpeg` / `parseFFmpegProgress`),
* the chunked upload engine (`frameioService.ts`: `uploadMedia`),
* the job coordinator (`simpleJobProcessor.ts`).

JavaScript specifics are modelled explicitly: `parseInt` is `parseIntJS`
(with `none` playing the role of `NaN`), `String.prototype.split` on a
plain separator is `strSplitOn`, split on the regex `/\s+/` is
`jsSplitWs`, buffers are modelled by their UTF-8 string contents, and
`undefined` arguments are `Option.none`.
-/

namespace FrameLut

/-! ## String primitives

Computable list-of-characters implementations of the string operations
the embedded code uses (`trim`, `split`, `startsWith`, `toLowerCase`,
…), so that every definition evaluates inside the kernel on concrete
inputs.  They agree with the JS operations on the separators and inputs
the code uses. -/

/-- Drop leading whitespace. -/
def charsTrimLeft (cs : List Char) : List Char :=
  cs.dropWhile Char.isWhitespace

/-- JS `s.trim()`. -/
def strTrim (s : String) : String :=
  String.mk ((charsTrimLeft (charsTrimLeft s.toList).reverse).reverse)

/-- JS `s.startsWith(pre)`. -/
def strStartsWith (s pre : String) : Bool :=
  pre.toList.isPrefixOf s.toList

/-- JS `s.toLowerCase()` (ASCII, which covers every keyword searched). -/
def strToLower (s : String) : String :=
  String.mk (s.toList.map Char.toLower)

/-- JS `s.substring(n)` / Lean `String.drop`. -/
def strDrop (s : String) (n : Nat) : String :=
  String.mk (s.toList.drop n)

/-- Split on a non-empty separator `s0 :: srest`, accumulating the
current segment in reverse; structural recursion on a character budget
(`fuel`, initially the input length, which consumption never outruns). -/
def splitOnCharsFuel (s0 : Char) (srest : List Char) :
    Nat → List Char → List Char → List (List Char)
  | _, [], acc => [acc.reverse]
  | 0, cs, acc => [acc.reverse ++ cs]
  | fuel + 1, c :: rest, acc =>
    if (s0 :: srest).isPrefixOf (c :: rest) then
      acc.reverse :: splitOnCharsFuel s0 srest fuel (rest.drop srest.length) []
    else
      splitOnCharsFuel s0 srest fuel rest (c :: acc)

/-- JS `s.split(sep)` for a non-empty literal separator (the only form
the code uses). -/
def strSplitOn (s sep : String) : List String :=
  match sep.toList with
  | [] => [s]
  | s0 :: srest =>
    (splitOnCharsFuel s0 srest s.toList.length s.toList []).map String.mk

/-! ## JavaScript primitives -/

/-- Longest prefix of decimal digits of a character list, as a number;
`none` when the list does not start with a digit (JS `parseInt` → `NaN`). -/
def digitsPrefixVal : List Char → Option Nat
  | [] => none
  | c :: cs =>
    if c.isDigit then
      some (digitsPrefixValAux (c.toNat - '0'.toNat) cs)
    else
      none
where
  /-- Accumulate the remaining digit prefix. -/
  digitsPrefixValAux (acc : Nat) : List Char → Nat
  | [] => acc
  | c :: cs =>
    if c.isDigit then digitsPrefixValAux (acc * 10 + (c.toNat - '0'.toNat)) cs
    else acc

/-- JS `parseInt(s, 10)`: skip leading whitespace, optional sign, then the
longest digit prefix; `none` models `NaN`. -/
def parseIntJS (s : String) : Option Int :=
  match charsTrimLeft s.toList with
  | '-' :: rest => (digitsPrefixVal rest).map (fun n => -(n : Int))
  | '+' :: rest => (digitsPrefixVal rest).map (fun n => (n : Int))
  | cs => (digitsPrefixVal cs).map (fun n => (n : Int))

/-- JS template interpolation of a possibly-`NaN` integer (`none` prints
as `NaN`). -/
def showJSInt : Option Int → String
  | none => "NaN"
  | some v => toString v

/-- JS truthiness of an optional string: `undefined` and `""` are falsy. -/
def strTruthy : Option String → Bool
  | none => false
  | some s => s ≠ ""

/-! ## Request authenticity verifier (`middleware/verifySignature.ts`) -/

/-- Outcome of `verifySignature`: either the request proceeds (`next()` is
called) or it is rejected with the HTTP status and error message sent. -/
inductive VerifyResult where
  | ok : VerifyResult
  | rejected (status : Nat) (error : String) : VerifyResult
deriving DecidableEq, Repr

/-- The canonical string that is HMAC-signed, from `verifySignature.ts`:
`v0:${timestamp}:${body}` for the Frame.io scheme, `${timestamp}.${body}`
for the generic scheme. -/
def signaturePayload (isFrameio : Bool) (timestamp : Int) (body : String) : String :=
  if isFrameio then "v0:" ++ toString timestamp ++ ":" ++ body
  else toString timestamp ++ "." ++ body

/-- `signatureHeader.split('=')[0]` — the scheme prefix. -/
def sigAlgorithm (sigHeader : String) : String :=
  (strSplitOn sigHeader "=").headD ""

/-- `signatureHeader.split('=')[1] || ''` — the provided digest. -/
def sigProvided (sigHeader : String) : String :=
  ((strSplitOn sigHeader "=").get? 1).getD ""

/-- The verifier `verifySignature(req, res, next)`, modelled as a pure
function of the two headers, the raw request body, the current Unix time
and the shared secret.  The HMAC-SHA256 primitive is abstracted as the
function argument `hmac : secret → message → hex digest`, exactly where
`createHmac('sha256', secret).update(msg).digest('hex')` appears in the
source. -/
def verifySignature (hmac : String → String → String) (secret : String)
    (sigHeader tsHeader : Option String) (rawBody : Option String)
    (now : Int) : VerifyResult :=
  if !(strTruthy sigHeader && strTruthy tsHeader) then
    .rejected 401 "Missing signature or timestamp header"
  else
    let sigH := sigHeader.getD ""
    let tsH := tsHeader.getD ""
    match parseIntJS tsH with
    | none => .rejected 401 "Invalid timestamp header"
    | some timestamp =>
      if 300 < (now - timestamp).natAbs then
        .rejected 401 "Request timestamp too old"
      else
        match rawBody with
        | none => .rejected 500 "Unable to verify signature"
        | some bodyString =>
          let algorithm := sigAlgorithm sigH
          let isFrameio := algorithm == "v0"
          let expectedSignature := hmac secret (signaturePayload isFrameio timestamp bodyString)
          if !isFrameio && algorithm != "sha256" then
            .rejected 401 "Invalid signature algorithm"
          else if expectedSignature != sigProvided sigH then
            .rejected 401 "Invalid signature"
          else
            .ok

/-! ## More JavaScript primitives -/

/-- Value of a digit list read in base 10. -/
def digitsToNat (ds : List Char) : Nat :=
  ds.foldl (fun a c => a * 10 + (c.toNat - '0'.toNat)) 0

/-- JS `parseFloat(s)`: leading whitespace, optional sign, digits with an
optional fraction, and an optional exponent; `none` models `NaN`. -/
def jsParseFloat (s : String) : Option ℚ :=
  let cs := charsTrimLeft s.toList
  let (neg, cs) :=
    match cs with
    | '-' :: r => (true, r)
    | '+' :: r => (false, r)
    | _ => (false, cs)
  let intDs := cs.takeWhile Char.isDigit
  let cs := cs.dropWhile Char.isDigit
  let (fracDs, cs) :=
    match cs with
    | '.' :: r => (r.takeWhile Char.isDigit, r.dropWhile Char.isDigit)
    | _ => ([], cs)
  if intDs = [] ∧ fracDs = [] then none
  else
    let mant : ℚ :=
      (digitsToNat intDs : ℚ) + (digitsToNat fracDs : ℚ) / ((10 : ℚ) ^ fracDs.length)
    let expo : Int :=
      match cs with
      | 'e' :: r => jsExpoVal r
      | 'E' :: r => jsExpoVal r
      | _ => 0
    let scaled : ℚ :=
      if 0 ≤ expo then mant * (10 : ℚ) ^ expo.toNat else mant / (10 : ℚ) ^ (-expo).toNat
    some (if neg then -scaled else scaled)
where
  /-- Exponent part after `e`/`E`; an exponent without digits is ignored. -/
  jsExpoVal (r : List Char) : Int :=
    match r with
    | '-' :: d =>
      match d.takeWhile Char.isDigit with
      | [] => 0
      | ds => -(digitsToNat ds : Int)
    | '+' :: d => (digitsToNat (d.takeWhile Char.isDigit) : Int)
    | d => (digitsToNat (d.takeWhile Char.isDigit) : Int)

/-- Worker for `jsSplitWs`: structural recursion on a character budget
(`fuel`, initially the input length, which consumption never outruns). -/
def jsSplitWsFuel : Nat → List Char → String → List String
  | _, [], cur => [cur]
  | 0, cs, cur => [cur ++ String.mk cs]
  | fuel + 1, c :: cs, cur =>
    if c.isWhitespace then
      cur :: jsSplitWsFuel fuel (cs.dropWhile Char.isWhitespace) ""
    else
      jsSplitWsFuel fuel cs (cur.push c)

/-- JS `s.split(/\s+/)`: split on maximal whitespace runs; a leading or
trailing run produces an empty first or last element, as in JS. -/
def jsSplitWs (s : String) : List String :=
  jsSplitWsFuel s.toList.length s.toList ""

/-- JS falsy-coalescing `v || d` on a possibly-`NaN` number (`NaN` and `0`
are falsy). -/
def jsOrQ (v : Option ℚ) (d : ℚ) : ℚ :=
  match v with
  | none => d
  | some q => if q = 0 then d else q

/-- Substring test (JS `String.prototype.includes`, for non-empty needles). -/
def strContainsSub (s pat : String) : Bool :=
  (strSplitOn s pat).length != 1

/-- Number of (non-overlapping) occurrences of a non-empty pattern. -/
def countSubstrOccur (s pat : String) : Nat :=
  (strSplitOn s pat).length - 1

/-- `Array.prototype.join(sep)`. -/
def joinSep (sep : String) : List String → String
  | [] => ""
  | [x] => x
  | x :: xs => x ++ sep ++ joinSep sep xs

/-! ## LUT data model (`types/lut.ts`) -/

/-- `type LUTType = '3D' | '1D'`. -/
inductive LUTType where
  | threeD | oneD
deriving DecidableEq, Repr

/-- `type ColorSpace = 'Rec709' | 'P3D65' | 'SLog3' | 'HLG' | 'PQ' |
'Linear' | 'LogC' | 'Unknown'`. -/
inductive ColorSpace where
  | Rec709 | P3D65 | SLog3 | HLG | PQ | Linear | LogC | Unknown
deriving DecidableEq, Repr

/-! ## LUT validation (`LUTService.validateLUT`) -/

/-- The non-blank, non-`#` lines of a CUBE file, as filtered by
`validateLUT` (`content.split('\n').filter(line => line.trim() &&
!line.startsWith('#'))`). -/
def cubeLines (content : String) : List String :=
  (strSplitOn content "\n").filter (fun l => strTrim l != "" && !(strStartsWith l "#"))

/-- State of the header scan loop in `validateLUT`. -/
structure CubeScan where
  hasTitle : Bool := false
  hasSize : Bool := false
  hasDomain : Bool := false
  /-- `none` models a `NaN` result of `parseInt`; initialised to `0`. -/
  size : Option Int := some 0
  type : LUTType := .threeD
deriving Repr

/-- One iteration of the header scan loop in `validateLUT`. -/
def scanStep (st : CubeScan) (line : String) : CubeScan :=
  let st := if strStartsWith line "TITLE" then { st with hasTitle := true } else st
  let st :=
    if strStartsWith line "LUT_3D_SIZE" then
      { st with hasSize := true, type := .threeD,
                size := ((jsSplitWs line).get? 1).bind parseIntJS }
    else st
  let st :=
    if strStartsWith line "LUT_1D_SIZE" then
      { st with hasSize := true, type := .oneD,
                size := ((jsSplitWs line).get? 1).bind parseIntJS }
    else st
  if strStartsWith line "DOMAIN_MIN" || strStartsWith line "DOMAIN_MAX" then
    { st with hasDomain := true }
  else st

/-- The whole header scan of `validateLUT`. -/
def cubeScan (lines : List String) : CubeScan :=
  lines.foldl scanStep {}

/-- The data lines counted by `validateLUT`: filtered lines that do not
start with `TITLE`, `LUT_` or `DOMAIN_`. -/
def dataLines (lines : List String) : List String :=
  lines.filter (fun l =>
    !(strStartsWith l "TITLE") && !(strStartsWith l "LUT_") && !(strStartsWith l "DOMAIN_"))

/-- `type === '3D' ? size * size * size : size` (NaN-propagating). -/
def expectedDataPoints (type : LUTType) (size : Option Int) : Option Int :=
  size.map (fun v => if type = .threeD then v * v * v else v)

/-- The `details` object of a validation result. -/
structure LUTValidationDetails where
  type : LUTType
  size : Option Int
  hasTitle : Bool
  hasDomain : Bool
deriving DecidableEq, Repr

/-- `LUTValidationResult` (empty `errors`/`warnings` model the `undefined`
fields; `valid ↔ errors = []` as in the source). -/
structure LUTValidationResult where
  valid : Bool
  errors : List String
  warnings : List String
  details : LUTValidationDetails
deriving DecidableEq, Repr

/-- The data-count error message of `validateLUT`. -/
def dataCountMismatchMsg (expected : Option Int) (got : Nat) : String :=
  "Data point count mismatch: expected " ++ showJSInt expected ++ ", got " ++ toString got

/-- The size-range error message of `validateLUT`. -/
def invalidSizeMsg (size : Option Int) : String :=
  "Invalid LUT size: " ++ showJSInt size ++ " (must be between 2 and 256)"

/-- `size < 2 || size > 256`; both comparisons are false on `NaN`. -/
def sizeRangeInvalid (size : Option Int) : Bool :=
  match size with
  | none => false
  | some v => decide (v < 2) || decide (v > 256)

/-- `dataLines.length !== expectedDataPoints` (`NaN` compares unequal). -/
def dataCountMismatch (type : LUTType) (size : Option Int) (count : Nat) : Bool :=
  match expectedDataPoints type size with
  | none => true
  | some e => decide ((count : Int) ≠ e)

/-- The `errors` array accumulated by `validateLUT`, in push order. -/
def validationErrors (content : String) : List String :=
  let st := cubeScan (cubeLines content)
  let dls := dataLines (cubeLines content)
  (if st.hasSize then [] else ["Missing LUT size declaration (LUT_3D_SIZE or LUT_1D_SIZE)"]) ++
  (if sizeRangeInvalid st.size then [invalidSizeMsg st.size] else []) ++
  (if dataCountMismatch st.type st.size dls.length then
    [dataCountMismatchMsg (expectedDataPoints st.type st.size) dls.length]
  else [])

/-- The `warnings` array accumulated by `validateLUT`, in push order. -/
def validationWarnings (content : String) : List String :=
  let st := cubeScan (cubeLines content)
  (if st.hasTitle then [] else ["Missing TITLE field"]) ++
  (if st.hasDomain then [] else
    ["Missing DOMAIN_MIN/DOMAIN_MAX fields (using defaults 0.0 to 1.0)"])

/-- `LUTService.validateLUT`, as a pure function of the file contents.
Mirrors the source exactly: the three error pushes in order, the two
warning pushes, `valid := errors.length === 0`. -/
def validateLUT (content : String) : LUTValidationResult :=
  let st := cubeScan (cubeLines content)
  { valid := (validationErrors content).isEmpty
    errors := validationErrors content
    warnings := validationWarnings content
    details := ⟨st.type, st.size, st.hasTitle, st.hasDomain⟩ }

/-! ## CUBE parsing (`LUTService.parseCubeLUT`) -/

/-- Strip one leading and one trailing `"` or `'` quote
(`replace(/^["']|["']$/g, '')`). -/
def stripEdgeQuotes (s : String) : String :=
  let isQ : Char → Bool := fun c => c = '"' || c = '\''
  let cs := s.toList
  let cs := match cs with
    | c :: r => if isQ c then r else c :: r
    | [] => []
  let cs := match cs.reverse with
    | c :: r => if isQ c then r.reverse else (c :: r).reverse
    | [] => []
  String.mk cs

/-- `ParsedLUT` (`CubeLUT` in the source) without the decoded RGB lattice:
the lattice array is filled by `parseCubeLUT` but is consumed by no field
of the persisted descriptor, so it is omitted from the model. -/
structure CubeLUT where
  title : String
  type : LUTType
  /-- `none` models `NaN`. -/
  size : Option Int
  domainMin : ℚ × ℚ × ℚ
  domainMax : ℚ × ℚ × ℚ
  colorspace : ColorSpace
deriving Repr

/-- State of the header loop in `parseCubeLUT`. -/
structure ParseScan where
  title : String := "Untitled"
  type : LUTType := .threeD
  size : Option Int := some 0
  domainMin : ℚ × ℚ × ℚ := (0, 0, 0)
  domainMax : ℚ × ℚ × ℚ := (1, 1, 1)

/-- One iteration of the header loop in `parseCubeLUT` (an
`if/else if` chain on the trimmed line). -/
def parseScanStep (st : ParseScan) (line : String) : ParseScan :=
  let trimmed := strTrim line
  if strStartsWith trimmed "TITLE" then
    { st with title := stripEdgeQuotes (strTrim (strDrop trimmed 5)) }
  else if strStartsWith trimmed "LUT_3D_SIZE" then
    { st with size := ((jsSplitWs trimmed).get? 1).bind parseIntJS, type := .threeD }
  else if strStartsWith trimmed "LUT_1D_SIZE" then
    { st with size := ((jsSplitWs trimmed).get? 1).bind parseIntJS, type := .oneD }
  else if strStartsWith trimmed "DOMAIN_MIN" then
    let values := ((jsSplitWs trimmed).drop 1).map jsParseFloat
    { st with domainMin :=
        (jsOrQ ((values.get? 0).join) 0, jsOrQ ((values.get? 1).join) 0,
         jsOrQ ((values.get? 2).join) 0) }
  else if strStartsWith trimmed "DOMAIN_MAX" then
    let values := ((jsSplitWs trimmed).drop 1).map jsParseFloat
    { st with domainMax :=
        (jsOrQ ((values.get? 0).join) 1, jsOrQ ((values.get? 1).join) 1,
         jsOrQ ((values.get? 2).join) 1) }
  else st

/-- Color-space inference from the title (`parseCubeLUT`). -/
def inferColorspace (title : String) : ColorSpace :=
  let tl := strToLower title
  if strContainsSub tl "rec709" || strContainsSub tl "709" then .Rec709
  else if strContainsSub tl "p3" then .P3D65
  else if strContainsSub tl "slog" then .SLog3
  else if strContainsSub tl "logc" then .LogC
  else .Unknown

/-- `LUTService.parseCubeLUT` (header fields and inferred color space). -/
def parseCubeLUT (content : String) : CubeLUT :=
  let st := (strSplitOn content "\n").foldl parseScanStep {}
  { title := st.title
    type := st.type
    size := st.size
    domainMin := st.domainMin
    domainMax := st.domainMax
    colorspace := inferColorspace st.title }

/-! ## LUT registry (`LUTService`)

The service's mutable state is the id-keyed `Map` of descriptors (modelled
as an insertion-ordered list with unique ids) and the storage directory
(modelled as a list of `(path, contents)` pairs; file contents are byte
strings).  `uuidv4()` and `new Date().toISOString()` results are passed in
as oracle arguments, and the SHA-256 digest is the abstract function
argument `sha256`. -/

/-- Storage directory (`config.ts` default `resolve(TMP_DIR, 'luts')`). -/
def LUT_STORAGE_DIR : String := "/tmp/archon-lut/luts"

/-- Descriptor metadata: the request's metadata map spread together with
the parsed domain bounds. -/
structure LUTMetadata where
  requestMetadata : List (String × String)
  domainMin : ℚ × ℚ × ℚ
  domainMax : ℚ × ℚ × ℚ
deriving DecidableEq, Repr

/-- `LUTDescriptor` (`types/lut.ts`). -/
structure LUTDescriptor where
  id : String
  name : String
  type : LUTType
  colorspace : ColorSpace
  size : String
  hash : String
  storageUri : String
  fileSize : Nat
  metadata : LUTMetadata
  createdAt : String
  updatedAt : String
  deletedAt : Option String
deriving DecidableEq, Repr

/-- `LUTCreateRequest` (`types/lut.ts`). -/
structure LUTCreateRequest where
  name : String
  type : Option LUTType := none
  colorspace : Option ColorSpace := none
  metadata : List (String × String) := []
deriving DecidableEq, Repr

/-- The `LUTService` state: the in-memory registry map plus the storage
directory contents. -/
structure LUTState where
  luts : List LUTDescriptor
  files : List (String × String)
deriving DecidableEq, Repr

/-- `Map.set` keyed by descriptor id: replace an existing entry, else
append in insertion order. -/
def lutsSet (luts : List LUTDescriptor) (d : LUTDescriptor) : List LUTDescriptor :=
  if luts.any (fun l => l.id == d.id) then
    luts.map (fun l => if l.id == d.id then d else l)
  else luts ++ [d]

/-- `LUTService.listLUTs`. -/
def listLUTs (st : LUTState) (includeDeleted : Bool := false) : List LUTDescriptor :=
  if includeDeleted then st.luts else st.luts.filter (fun l => l.deletedAt.isNone)

/-- `LUTService.getLUT`. -/
def getLUT (st : LUTState) (lutId : String) : Option LUTDescriptor :=
  match st.luts.find? (fun l => l.id == lutId) with
  | none => none
  | some lut => if lut.deletedAt.isSome then none else some lut

/-- `join(LUT_STORAGE_DIR, `${lutId}.cube`)`. -/
def lutStoragePath (newId : String) : String :=
  LUT_STORAGE_DIR ++ "/" ++ (newId ++ ".cube")

/-- The fresh descriptor `createLUT` builds for a new file. -/
def newLUTDescriptor (sha256 : String → String) (fileBuffer : String)
    (request : LUTCreateRequest) (newId now : String) : LUTDescriptor :=
  let parsedLUT := parseCubeLUT fileBuffer
  { id := newId
    name :=
      if request.name ≠ "" then request.name
      else if parsedLUT.title ≠ "" then parsedLUT.title
      else "Unnamed LUT"
    type := parsedLUT.type
    colorspace := request.colorspace.getD parsedLUT.colorspace
    size := showJSInt parsedLUT.size ++ "x" ++ showJSInt parsedLUT.size ++ "x" ++
      showJSInt parsedLUT.size
    hash := sha256 fileBuffer
    storageUri := lutStoragePath newId
    fileSize := fileBuffer.length
    metadata := ⟨request.metadata, parsedLUT.domainMin, parsedLUT.domainMax⟩
    createdAt := now
    updatedAt := now
    deletedAt := none }

/-- `LUTService.createLUT`: validate, parse, hash, return an existing
descriptor with the same hash unchanged, otherwise write the file and
append a fresh descriptor.  `newId` is the `uuidv4()` draw and `now` the
ISO timestamp. -/
def createLUT (sha256 : String → String) (st : LUTState) (fileBuffer : String)
    (request : LUTCreateRequest) (newId now : String) :
    Except String (LUTState × LUTDescriptor) :=
  let validation := validateLUT fileBuffer
  if !validation.valid then
    .error ("Invalid LUT file: " ++ joinSep ", " validation.errors)
  else
    let hash := sha256 fileBuffer
    match st.luts.find? (fun l => l.hash == hash) with
    | some existingLUT => .ok (st, existingLUT)
    | none =>
      let lutDescriptor := newLUTDescriptor sha256 fileBuffer request newId now
      .ok ({ luts := lutsSet st.luts lutDescriptor
             files := st.files ++ [(lutStoragePath newId, fileBuffer)] },
           lutDescriptor)

/-- `LUTService.deleteLUT`: hard delete removes the entry and unlinks the
backing file; soft delete stamps `deletedAt`/`updatedAt` in place. -/
def deleteLUT (st : LUTState) (lutId : String) (hardDelete : Bool) (now : String) :
    Except String LUTState :=
  match st.luts.find? (fun l => l.id == lutId) with
  | none => .error ("LUT not found: " ++ lutId)
  | some lut =>
    if hardDelete then
      .ok { luts := st.luts.filter (fun l => l.id != lutId)
            files := st.files.filter (fun f => f.1 != lut.storageUri) }
    else
      .ok { st with
            luts := st.luts.map (fun l =>
              if l.id == lutId then { l with deletedAt := some now, updatedAt := now }
              else l) }

/-! ## Filter graph builder (`ffmpeg/applyLUT.ts`) -/

/-- `'nearest' | 'trilinear' | 'tetrahedral'`. -/
inductive Interp where
  | nearest | trilinear | tetrahedral
deriving DecidableEq, Repr

/-- The interpolation keyword as written into the filter string. -/
def Interp.toStr : Interp → String
  | .nearest => "nearest"
  | .trilinear => "trilinear"
  | .tetrahedral => "tetrahedral"

/-- `FFmpegFilterOptions` (strength is a JS number; the values the claims
exercise are exact, so it is modelled as a rational). -/
structure FFmpegFilterOptions where
  lutPath : String
  inputColorSpace : Option ColorSpace := none
  outputColorSpace : Option ColorSpace := none
  strength : Option ℚ := none
  interpolation : Option Interp := none
deriving DecidableEq, Repr

/-- The hardcoded conversion table of `getColorSpaceConversionFilter`. -/
def colorSpaceConversions : ColorSpace → ColorSpace → Option String
  | .SLog3, .Rec709 => some "colorspace=all=bt709:iall=bt2020:fast=0"
  | .SLog3, .P3D65 => some "colorspace=all=p3-d65:iall=bt2020:fast=0"
  | .LogC, .Rec709 => some "colorspace=all=bt709:iall=bt470bg:fast=0"
  | .LogC, .P3D65 => some "colorspace=all=p3-d65:iall=bt470bg:fast=0"
  | .P3D65, .Rec709 => some "colorspace=all=bt709:iall=p3-d65:fast=0"
  | .P3D65, .SLog3 => some "colorspace=all=bt2020:iall=p3-d65:fast=0"
  | .Rec709, .P3D65 => some "colorspace=all=p3-d65:iall=bt709:fast=0"
  | .Rec709, .SLog3 => some "colorspace=all=bt2020:iall=bt709:fast=0"
  | _, _ => none

/-- The generic fallback filter returned when the table has no entry. -/
def fallbackConversionFilter : String := "colorspace=all=bt709:fast=0"

/-- `getColorSpaceConversionFilter(from, to)`. -/
def getColorSpaceConversionFilter (src dst : ColorSpace) : String :=
  (colorSpaceConversions src dst).getD fallbackConversionFilter

/-- Shortest-decimal rendering of a JS number whose value is a decimal
rational (the only strengths the code interpolates are such values):
`0.5 ↦ "0.5"`, `1 ↦ "1"`. -/
def jsNumToString (q : ℚ) : String :=
  if q.den = 1 then toString q.num
  else
    match (List.range 21).find? (fun k => (10 : ℕ) ^ k % q.den = 0) with
    | none => toString q
    | some k =>
      let v := q.num.natAbs * ((10 : ℕ) ^ k / q.den)
      let ip := v / 10 ^ k
      let fracDigits :=
        let raw := toString (v % 10 ^ k)
        String.mk (List.replicate (k - raw.length) '0') ++ raw
      (if q.num < 0 then "-" else "") ++ toString ip ++ "." ++ fracDigits

/-- The LUT application stage: `lut3d='<path>'` plus the optional
`:interp=` suffix. -/
def lutStage (o : FFmpegFilterOptions) : String :=
  "lut3d='" ++ o.lutPath ++ "'" ++
    (match o.interpolation with
     | some i => ":interp=" ++ i.toStr
     | none => "")

/-- The input-conversion stages pushed before the LUT stage. -/
def inputConvFilters (o : FFmpegFilterOptions) : List String :=
  match o.inputColorSpace with
  | some cs => if cs = .Rec709 then [] else [getColorSpaceConversionFilter cs .Rec709]
  | none => []

/-- The output-conversion stages appended after the LUT stage. -/
def outputConvFilters (o : FFmpegFilterOptions) : List String :=
  match o.outputColorSpace with
  | some cs => if cs = .Rec709 then [] else [getColorSpaceConversionFilter .Rec709 cs]
  | none => []

/-- `buildBlendedLUTFilter`: split into two paths, apply the LUT to one,
cross-blend at the requested opacity (`options.strength || 1.0`, where `0`
is falsy). -/
def buildBlendedLUTFilter (o : FFmpegFilterOptions) : String :=
  let strength : ℚ := jsOrQ o.strength 1
  "[0:v]split=2[original][lut];[lut]lut3d='" ++ o.lutPath ++ "'" ++
    (match o.interpolation with
     | some i => ":interp=" ++ i.toStr
     | none => "") ++
    "[lutted];[original][lutted]blend=all_mode=normal:all_opacity=" ++
    jsNumToString strength

/-- The non-blended chain `filters.join(',')`. -/
def nonBlendedChain (o : FFmpegFilterOptions) : String :=
  joinSep "," (inputConvFilters o ++ lutStage o :: outputConvFilters o)

/-- `buildLUTFilterGraph`.  The source pushes the input conversion and the
LUT stage, returns the blended graph early when `strength < 1.0`, and
otherwise appends the output conversion and joins with `','` — the early
return discards the pushed list, so the result is exactly as modelled. -/
def buildLUTFilterGraph (o : FFmpegFilterOptions) : String :=
  match o.strength with
  | some s => if s < 1 then buildBlendedLUTFilter o else nonBlendedChain o
  | none => nonBlendedChain o

/-! ## Transcode progress (`parseFFmpegProgress` / `runFFmpeg`) -/

/-- Match the regex `time=(\d{2}:\d{2}:\d{2}\.\d{2})` at the head of a
character list, returning the captured group. -/
def matchTimeAt : List Char → Option String
  | 't' :: 'i' :: 'm' :: 'e' :: '=' :: h1 :: h2 :: ':' :: m1 :: m2 :: ':' ::
      s1 :: s2 :: '.' :: c1 :: c2 :: _ =>
    if [h1, h2, m1, m2, s1, s2, c1, c2].all Char.isDigit then
      some (String.mk [h1, h2, ':', m1, m2, ':', s1, s2, '.', c1, c2])
    else none
  | _ => none

/-- First match of the `time=` regex anywhere in the line (JS
`String.prototype.match` scans left to right). -/
def findTimeIn : List Char → Option String
  | [] => none
  | c :: cs =>
    match matchTimeAt (c :: cs) with
    | some t => some t
    | none => findTimeIn cs

/-- Match `\d+\.?\d*` at the head, returning the token and the rest. -/
def matchNumAt (cs : List Char) : Option (List Char × List Char) :=
  let d1 := cs.takeWhile Char.isDigit
  if d1 = [] then none
  else
    let cs1 := cs.dropWhile Char.isDigit
    match cs1 with
    | '.' :: r => some (d1 ++ '.' :: r.takeWhile Char.isDigit, r.dropWhile Char.isDigit)
    | _ => some (d1, cs1)

/-- Match `fps=\s*(\d+\.?\d*)` at the head, returning the captured group. -/
def matchFpsAt : List Char → Option String
  | 'f' :: 'p' :: 's' :: '=' :: rest =>
    (matchNumAt (rest.dropWhile Char.isWhitespace)).map (fun p => String.mk p.1)
  | _ => none

/-- First match of the `fps=` regex anywhere in the line. -/
def findFpsIn : List Char → Option String
  | [] => none
  | c :: cs =>
    match matchFpsAt (c :: cs) with
    | some t => some t
    | none => findFpsIn cs

/-- Match `speed=\s*(\d+\.?\d*)x` at the head.  The trailing literal `x`
must follow the greedily matched number; shrinking `\.?`/`\d*` can never
recover a failed match (the abandoned character is a digit or `.`), so
greedy matching is exact here. -/
def matchSpeedAt : List Char → Option String
  | 's' :: 'p' :: 'e' :: 'e' :: 'd' :: '=' :: rest =>
    match matchNumAt (rest.dropWhile Char.isWhitespace) with
    | some (tok, 'x' :: _) => some (String.mk tok)
    | _ => none
  | _ => none

/-- First match of the `speed=` regex anywhere in the line. -/
def findSpeedIn : List Char → Option String
  | [] => none
  | c :: cs =>
    match matchSpeedAt (c :: cs) with
    | some t => some t
    | none => findSpeedIn cs

/-- The result object of `parseFFmpegProgress`. -/
structure FFmpegProgress where
  time : Option String
  fps : Option ℚ
  speed : Option ℚ
deriving DecidableEq, Repr

/-- `parseFFmpegProgress(line)`. -/
def parseFFmpegProgress (line : String) : FFmpegProgress :=
  { time := findTimeIn line.toList
    fps := (findFpsIn line.toList).bind jsParseFloat
    speed := (findSpeedIn line.toList).bind jsParseFloat }

/-- `runFFmpeg`'s conversion of a matched `hh:mm:ss.cc` token to seconds
(`parseInt` on the first two `:`-fields, `parseFloat` on the third); a
`NaN` anywhere poisons the comparison, i.e. yields no emission. -/
def ffmpegTimeSeconds (t : String) : Option ℚ :=
  let parts := strSplitOn t ":"
  match (parts.get? 0).bind parseIntJS, (parts.get? 1).bind parseIntJS,
      (parts.get? 2).bind jsParseFloat with
  | some h, some m, some s => some ((h : ℚ) * 3600 + (m : ℚ) * 60 + s)
  | _, _, _ => none

/-- The percentages handed to `onProgress` by `runFFmpeg`'s stderr loop,
folded over the diagnostic lines with the `lastProgress` accumulator
(initially `0`): a line emits `min(percent, 100)` exactly when its parsed
time yields `percent > lastProgress`, and `lastProgress` is updated to the
uncapped `percent`. -/
def runFFmpegEmits (totalDuration : ℚ) : List String → ℚ → List ℚ
  | [], _ => []
  | line :: rest, lastProgress =>
    match (parseFFmpegProgress line).time with
    | some t =>
      if 0 < totalDuration then
        match ffmpegTimeSeconds t with
        | some currentTime =>
          if lastProgress < currentTime / totalDuration * 100 then
            min (currentTime / totalDuration * 100) 100 ::
              runFFmpegEmits totalDuration rest (currentTime / totalDuration * 100)
          else runFFmpegEmits totalDuration rest lastProgress
        | none => runFFmpegEmits totalDuration rest lastProgress
      else runFFmpegEmits totalDuration rest lastProgress
    | none => runFFmpegEmits totalDuration rest lastProgress

/-- The full progress-callback sequence of one `runFFmpeg` run. -/
def runFFmpegProgressSeq (totalDuration : ℚ) (lines : List String) : List ℚ :=
  runFFmpegEmits totalDuration lines 0

/-! ## Chunked upload engine (`FrameIOService.uploadMedia`) -/

/-- Outcome of one presigned-URL `fetch` PUT: either a response (with
`ok`, `status`, and the body text read on failure) or a network-level
rejection. -/
inductive FetchOutcome where
  | response (ok : Bool) (status : Nat) (text : String)
  | netError (msg : String)
deriving DecidableEq, Repr

/-- The failure test of `uploadMedia`: a network rejection propagates as
is; a response fails when `!response.ok && status !== 200 && status !==
204`, raising `Upload failed with status <status>: <errorText>`. -/
def chunkFailure : FetchOutcome → Option String
  | .netError m => some m
  | .response ok status text =>
    if !ok ∧ status ≠ 200 ∧ status ≠ 204 then
      some ("Upload failed with status " ++ toString status ++ ": " ++ text)
    else none

/-- One observable chunk transfer: the file offset it was read at, the
byte count read, and the cumulative percentage reported afterwards. -/
structure ChunkEvent where
  offset : Nat
  bytes : Nat
  percent : ℚ
deriving DecidableEq, Repr

/-- The loop of `uploadMedia` over the remaining chunk plan, carrying the
chunk index `i`, `currentOffset` and `totalUploaded`.  `bytesToRead =
min(chunkSize, fileSize - currentOffset)`; a zero read breaks out of the
loop; a failed transfer aborts with the error, keeping the events already
reported.  The PUT outcome for chunk `i` is the oracle `net i`; the
presigned URL string itself does not influence control flow. -/
def uploadMediaGo (net : Nat → FetchOutcome) (fileSize : Nat) :
    List (String × Nat) → Nat → Nat → Nat → List ChunkEvent × Except String Unit
  | [], _, _, _ => ([], .ok ())
  | (_, chunkSize) :: rest, i, currentOffset, totalUploaded =>
    let bytesToRead := min chunkSize (fileSize - currentOffset)
    if bytesToRead = 0 then ([], .ok ())
    else
      match chunkFailure (net i) with
      | some e => ([], .error e)
      | none =>
        let ev : ChunkEvent :=
          ⟨currentOffset, bytesToRead,
           ((totalUploaded + bytesToRead : ℚ) / (fileSize : ℚ)) * 100⟩
        let next := uploadMediaGo net fileSize rest (i + 1)
          (currentOffset + bytesToRead) (totalUploaded + bytesToRead)
        (ev :: next.1, next.2)

/-- `FrameIOService.uploadMedia(uploadUrls, filePath, mediaType,
onProgress)`, as the sequence of chunk events plus the overall outcome. -/
def uploadMedia (net : Nat → FetchOutcome) (uploadUrls : List (String × Nat))
    (fileSize : Nat) : List ChunkEvent × Except String Unit :=
  uploadMediaGo net fileSize uploadUrls 0 0 0

/-- Modelled from the spec's upload contract, for comparison with
`uploadMedia`: every chunk is transferred at the offset equal to the sum
of the plan sizes of all prior chunks, in exactly the plan's chunk size;
after each chunk the reported percentage is cumulative bytes over file
size; a chunk failure aborts the whole upload with the destination's
error detail. -/
def uploadMediaSpec (net : Nat → FetchOutcome) (uploadUrls : List (String × Nat))
    (fileSize : Nat) : List ChunkEvent × Except String Unit :=
  go uploadUrls 0 0
where
  go : List (String × Nat) → Nat → Nat → List ChunkEvent × Except String Unit
  | [], _, _ => ([], .ok ())
  | (_, chunkSize) :: rest, i, priorBytes =>
    match chunkFailure (net i) with
    | some e => ([], .error e)
    | none =>
      let ev : ChunkEvent :=
        ⟨priorBytes, chunkSize, ((priorBytes + chunkSize : ℚ) / (fileSize : ℚ)) * 100⟩
      let next := go rest (i + 1) (priorBytes + chunkSize)
      (ev :: next.1, next.2)

/-! ## Job coordinator (`simpleJobProcessor.ts`) -/

/-- `type JobStatus = 'pending' | 'processing' | 'uploading' |
'completed' | 'failed'`. -/
inductive JobStatus where
  | pending | processing | uploading | completed | failed
deriving DecidableEq, Repr

/-- `config.PROCESSING_MODE`. -/
inductive ProcessingMode where
  | remote | local
deriving DecidableEq, Repr

/-- Outcomes of the fallible local-mode pipeline stages (temp-dir and
`stat` filesystem failures surface through the same `catch` and can be
read into the stage that raised them). -/
structure LocalSteps where
  download : Except String Unit
  probe : Except String Unit
  applyLUT : Except String Unit
  upload : Except String Unit
deriving Repr

/-- One `updateJobStatus` call: the status written and the error recorded
with it, if any. -/
abbrev StatusWrite := JobStatus × Option String

/-- The two `failed` writes a pipeline exception produces: one from
`processJobAsync`'s own `catch` (which rethrows) and one from the
`.catch` handler in `processLUTJob`. -/
def failWrites (e : String) : List StatusWrite :=
  [(.failed, some e), (.failed, some e)]

/-- The sequence of status writes to one job record: `pending` at
creation, `processing` on pipeline start, then either the remote branch
(straight to `completed`) or the local branch (`uploading` before the
upload, then `completed`); any stage error leads to the `failed`
writes. -/
def processJobWrites (lutFound : Bool) (lutId : String) (mode : ProcessingMode)
    (remote : Except String Unit) (localSteps : LocalSteps) : List StatusWrite :=
  [(.pending, none), (.processing, none)] ++
  if !lutFound then failWrites ("LUT not found: " ++ lutId)
  else
    match mode with
    | .remote =>
      match remote with
      | .ok _ => [(.completed, none)]
      | .error e => failWrites e
    | .local =>
      match localSteps.download with
      | .error e => failWrites e
      | .ok _ =>
        match localSteps.probe with
        | .error e => failWrites e
        | .ok _ =>
          match localSteps.applyLUT with
          | .error e => failWrites e
          | .ok _ =>
            (.uploading, none) ::
              match localSteps.upload with
              | .ok _ => [(.completed, none)]
              | .error e => failWrites e

/-- The first pipeline error of a job, if any (the message of the
exception that reaches the `catch` blocks). -/
def jobFirstFailure (lutFound : Bool) (lutId : String) (mode : ProcessingMode)
    (remote : Except String Unit) (localSteps : LocalSteps) : Option String :=
  if !lutFound then some ("LUT not found: " ++ lutId)
  else
    match mode with
    | .remote =>
      match remote with
      | .ok _ => none
      | .error e => some e
    | .local =>
      match localSteps.download, localSteps.probe, localSteps.applyLUT, localSteps.upload with
      | .error e, _, _, _ => some e
      | .ok _, .error e, _, _ => some e
      | .ok _, .ok _, .error e, _ => some e
      | .ok _, .ok _, .ok _, .error e => some e
      | .ok _, .ok _, .ok _, .ok _ => none

/-- The job state machine exactly as the spec draws it:
`pending → processing → uploading → completed`, `failed` from any
non-terminal state, plus stuttering (re-writing the current status). -/
def specStatusEdge : JobStatus → JobStatus → Bool
  | .pending, .processing => true
  | .processing, .uploading => true
  | .uploading, .completed => true
  | .pending, .failed => true
  | .processing, .failed => true
  | .uploading, .failed => true
  | a, b => a == b

/-- The state machine the code actually follows: the spec machine plus
the remote-mode shortcut `processing → completed`. -/
def codeStatusEdge : JobStatus → JobStatus → Bool
  | .processing, .completed => true
  | a, b => specStatusEdge a b

/-! ## Upload post-processing (`frameioProcessor.uploadProcessedVideo`,
`remoteFrameioProcessor.processVideoRemotely`) -/

/-- The tail of `uploadProcessedVideo` after the new file has been
created: chunked upload, version stack, then the best-effort comment
whose failure is caught and logged only.  `pre` stands for the fallible
preparation (asset lookup, parent checks, `createFile`); `fileId` is the
created file's id. -/
def uploadProcessedVideo (pre : Except String Unit) (uploadUrlsPresent : Bool)
    (media stack comment : Except String Unit) (fileId : String) :
    Except String (String × String) :=
  match pre with
  | .error e => .error e
  | .ok _ =>
    if !uploadUrlsPresent then
      .error "No upload URLs provided for new file"
    else
      match media with
      | .error e => .error e
      | .ok _ =>
        match stack with
        | .error e => .error e
        | .ok _ =>
          -- `postComment` failure is caught: logged, never rethrown
          match comment with
          | .error _ => .ok (fileId, fileId)
          | .ok _ => .ok (fileId, fileId)

/-- The corresponding tail of `processVideoRemotely` (same shape: upload,
version stack, caught best-effort comment, cleanup, return ids). -/
def processVideoRemotely (pre : Except String Unit) (uploadUrlsPresent : Bool)
    (media stack comment : Except String Unit) (fileId : String) :
    Except String (String × String) :=
  match pre with
  | .error e => .error e
  | .ok _ =>
    if !uploadUrlsPresent then
      .error "No upload URLs provided for new file"
    else
      match media with
      | .error e => .error e
      | .ok _ =>
        match stack with
        | .error e => .error e
        | .ok _ =>
          match comment with
          | .error _ => .ok (fileId, fileId)
          | .ok _ => .ok (fileId, fileId)

/-! # Theorems -/

/-- C1.  Inbound trigger verification: a request with a missing signature
or timestamp header is rejected; an unparseable timestamp is rejected; a
timestamp more than 300 seconds from the current time is rejected (in
particular one exactly 301 seconds in the past), while one 299 seconds in
the past with a correct digest is accepted; and an incorrect HMAC-SHA256
digest is never accepted, regardless of timestamp freshness. -/
theorem verifySignature_claims :
    (∀ (hmac : String → String → String) (secret : String)
        (sig ts body : Option String) (now : Int),
        sig = none ∨ ts = none →
        verifySignature hmac secret sig ts body now =
          .rejected 401 "Missing signature or timestamp header") ∧
    (∀ (hmac : String → String → String) (secret s t : String)
        (body : Option String) (now : Int),
        s ≠ "" → t ≠ "" → parseIntJS t = none →
        verifySignature hmac secret (some s) (some t) body now =
          .rejected 401 "Invalid timestamp header") ∧
    (∀ (hmac : String → String → String) (secret s t : String)
        (body : Option String) (now ts : Int),
        s ≠ "" → t ≠ "" → parseIntJS t = some ts → 300 < (now - ts).natAbs →
        verifySignature hmac secret (some s) (some t) body now =
          .rejected 401 "Request timestamp too old") ∧
    (∀ (hmac : String → String → String) (secret s t : String)
        (body : Option String) (now ts : Int),
        s ≠ "" → t ≠ "" → parseIntJS t = some ts → now - ts = 301 →
        verifySignature hmac secret (some s) (some t) body now =
          .rejected 401 "Request timestamp too old") ∧
    (∀ (hmac : String → String → String) (secret sig t body : String) (now ts : Int),
        sig ≠ "" → t ≠ "" → parseIntJS t = some ts → now - ts = 299 →
        sigAlgorithm sig = "sha256" →
        sigProvided sig = hmac secret (signaturePayload false ts body) →
        verifySignature hmac secret (some sig) (some t) (some body) now = .ok) ∧
    (∀ (hmac : String → String → String) (secret sig t body : String) (now ts : Int),
        parseIntJS t = some ts →
        sigProvided sig ≠ hmac secret (signaturePayload (sigAlgorithm sig == "v0") ts body) →
        verifySignature hmac secret (some sig) (some t) (some body) now ≠ .ok) := by
  refine ⟨?_, ?_, ?_, ?_, ?_, ?_⟩
  · rintro hmac secret sig ts body now (rfl | rfl) <;>
      simp [verifySignature, strTruthy]
  · intro hmac secret s t body now hs ht hp
    simp [verifySignature, strTruthy, hs, ht, hp]
  · intro hmac secret s t body now ts hs ht hp h300
    simp [verifySignature, strTruthy, hs, ht, hp, h300]
  · intro hmac secret s t body now ts hs ht hp h301
    simp [verifySignature, strTruthy, hs, ht, hp, h301]
  · intro hmac secret sig t body now ts hsig ht hp h299 halg hprov
    have hfresh : ¬ 300 < (now - ts).natAbs := by rw [h299]; decide
    simp [verifySignature, strTruthy, hsig, ht, hp, hfresh, halg, signaturePayload, hprov]
  · intro hmac secret sig t body now ts hp hne
    rcases eq_or_ne sig "" with rfl | hsig
    · simp [verifySignature, strTruthy]
    rcases eq_or_ne t "" with rfl | ht
    · simp [verifySignature, strTruthy]
    simp only [verifySignature, strTruthy, hsig, ht, hp]
    repeat' split
    all_goals simp_all

/-- Witness for C1: the six conjuncts instantiated at concrete requests
(with a concrete stand-in for the HMAC primitive). -/
theorem verifySignature_claims_witness :
    verifySignature (fun k m => k ++ "|" ++ m) "sec" none (some "1") (some "b") 0 =
      .rejected 401 "Missing signature or timestamp header" ∧
    verifySignature (fun k m => k ++ "|" ++ m) "sec" (some "x") (some "abc") (some "b") 0 =
      .rejected 401 "Invalid timestamp header" ∧
    verifySignature (fun k m => k ++ "|" ++ m) "sec" (some "x") (some "100") (some "b") 1000 =
      .rejected 401 "Request timestamp too old" ∧
    verifySignature (fun k m => k ++ "|" ++ m) "sec" (some "x") (some "0") (some "b") 301 =
      .rejected 401 "Request timestamp too old" ∧
    verifySignature (fun k m => k ++ "|" ++ m) "sec" (some "sha256=sec|1.b") (some "1")
      (some "b") 300 = .ok ∧
    verifySignature (fun k m => k ++ "|" ++ m) "sec" (some "sha256=wrong") (some "1")
      (some "b") 0 ≠ .ok := by
  refine ⟨?_, ?_, ?_, ?_, ?_, ?_⟩
  · exact verifySignature_claims.1 _ _ _ _ _ _ (Or.inl rfl)
  · exact verifySignature_claims.2.1 _ _ _ _ _ _ (by decide) (by decide) (by decide)
  · exact verifySignature_claims.2.2.1 _ _ _ _ _ 1000 100 (by decide) (by decide)
      (by decide) (by decide)
  · exact verifySignature_claims.2.2.2.1 _ _ _ _ _ 301 0 (by decide) (by decide)
      (by decide) (by decide)
  · exact verifySignature_claims.2.2.2.2.1 _ _ _ _ _ 300 1 (by decide) (by decide)
      (by decide) (by decide) (by decide) (by decide)
  · exact verifySignature_claims.2.2.2.2.2 _ _ _ _ _ 0 1 (by decide) (by decide)

/-- C2.  Validation exactness: a file whose header scan declares a 3D
lattice of size `n` fails validation with a data-count *error* whenever
the number of non-header data lines differs from `n³` (in particular for
`n³ − 1` and `n³ + 1`), and a declared size outside `[2, 256]` fails
validation regardless of the row count. -/
theorem validateLUT_size_exactness (content : String) (n : Int)
    (h3 : (validateLUT content).details.type = .threeD)
    (hs : (validateLUT content).details.size = some n) :
    ((n < 2 ∨ 256 < n) → (validateLUT content).valid = false) ∧
    (((dataLines (cubeLines content)).length : Int) ≠ n ^ 3 →
      (validateLUT content).valid = false ∧
      dataCountMismatchMsg (some (n ^ 3)) (dataLines (cubeLines content)).length ∈
        (validateLUT content).errors) := by
  have ht : (cubeScan (cubeLines content)).type = .threeD := by
    simpa [validateLUT] using h3
  have hn : (cubeScan (cubeLines content)).size = some n := by
    simpa [validateLUT] using hs
  have hpow : n ^ 3 = n * n * n := by ring
  constructor
  · intro hrange
    have hinv : sizeRangeInvalid (cubeScan (cubeLines content)).size = true := by
      rw [hn]; rcases hrange with h | h <;> simp [sizeRangeInvalid, h]
    have hne : validationErrors content ≠ [] := by
      simp [validationErrors, hinv]
    simpa [validateLUT, List.isEmpty_iff] using hne
  · intro hcount
    rw [hpow] at hcount
    have hmis : dataCountMismatch (cubeScan (cubeLines content)).type
        (cubeScan (cubeLines content)).size (dataLines (cubeLines content)).length = true := by
      rw [ht, hn]
      simp [dataCountMismatch, expectedDataPoints, hcount]
    have hexp : expectedDataPoints (cubeScan (cubeLines content)).type
        (cubeScan (cubeLines content)).size = some (n * n * n) := by
      rw [ht, hn]; simp [expectedDataPoints]
    refine ⟨?_, ?_⟩
    · have hne : validationErrors content ≠ [] := by
        simp [validationErrors, hmis]
      simpa [validateLUT, List.isEmpty_iff] using hne
    · show dataCountMismatchMsg (some (n ^ 3)) (dataLines (cubeLines content)).length ∈
        validationErrors content
      rw [hpow]
      simp only [validationErrors, hmis, if_true, hexp]
      simp

/-- Witness for C2: a 2×2×2 LUT with 7 rows (`n³ − 1`), one with 9 rows
(`n³ + 1`), and a declared size of 300 all fail validation, the first two
with the data-count error message. -/
theorem validateLUT_size_exactness_witness :
    ((validateLUT
        "LUT_3D_SIZE 2\n0 0 0\n1 0 0\n0 1 0\n1 1 0\n0 0 1\n1 0 1\n0 1 1\n").valid = false ∧
      dataCountMismatchMsg (some 8) 7 ∈ (validateLUT
        "LUT_3D_SIZE 2\n0 0 0\n1 0 0\n0 1 0\n1 1 0\n0 0 1\n1 0 1\n0 1 1\n").errors) ∧
    (validateLUT
      "LUT_3D_SIZE 2\n0 0 0\n1 0 0\n0 1 0\n1 1 0\n0 0 1\n1 0 1\n0 1 1\n1 1 1\n0 0 0\n").valid
      = false ∧
    (validateLUT "LUT_3D_SIZE 300\n0 0 0\n").valid = false := by
  refine ⟨⟨?_, ?_⟩, ?_, ?_⟩
  · exact ((validateLUT_size_exactness _ 2 (by decide) (by decide)).2 (by decide)).1
  · exact ((validateLUT_size_exactness _ 2 (by decide) (by decide)).2 (by decide)).2
  · exact ((validateLUT_size_exactness _ 2 (by decide) (by decide)).2 (by decide)).1
  · exact (validateLUT_size_exactness _ 300 (by decide) (by decide)).1 (Or.inr (by decide))

/-- C3.  Content-hash idempotence of creation: submitting byte-identical
contents twice — under any two requests and any two fresh ids — returns
the same descriptor both times (equal id, equal hash), leaves the
registry untouched on the second call, stores exactly one file for that
hash, and mints exactly one id. -/
theorem createLUT_idempotent (sha256 : String → String) (st : LUTState)
    (bytes : String) (req1 req2 : LUTCreateRequest) (id1 id2 t1 t2 : String)
    (hvalid : (validateLUT bytes).valid = true)
    (hhash : ∀ d ∈ st.luts, d.hash ≠ sha256 bytes)
    (hid : ∀ d ∈ st.luts, d.id ≠ id1)
    (hfiles : ∀ f ∈ st.files, sha256 f.2 ≠ sha256 bytes) :
    ∃ st1 d1,
      createLUT sha256 st bytes req1 id1 t1 = .ok (st1, d1) ∧
      createLUT sha256 st1 bytes req2 id2 t2 = .ok (st1, d1) ∧
      d1.id = id1 ∧ d1.hash = sha256 bytes ∧
      (st1.files.filter (fun f => sha256 f.2 == sha256 bytes)).length = 1 ∧
      st1.luts.length = st.luts.length + 1 := by
  have hfind : st.luts.find? (fun l => l.hash == sha256 bytes) = none :=
    List.find?_eq_none.mpr (fun d hd => by simp [hhash d hd])
  set D := newLUTDescriptor sha256 bytes req1 id1 t1 with hD
  have hDid : D.id = id1 := rfl
  have hDhash : D.hash = sha256 bytes := rfl
  have hany : st.luts.any (fun l => l.id == D.id) = false := by
    rw [List.any_eq_false]
    intro d hd
    simp [hDid, hid d hd]
  have hset : lutsSet st.luts D = st.luts ++ [D] := by
    simp [lutsSet, hany]
  refine ⟨⟨st.luts ++ [D], st.files ++ [(lutStoragePath id1, bytes)]⟩, D, ?_, ?_, hDid,
    hDhash, ?_, ?_⟩
  · simp [createLUT, hvalid, hfind, hset]
  · have hfind2 : (st.luts ++ [D]).find? (fun l => l.hash == sha256 bytes) = some D := by
      rw [List.find?_append, hfind]
      simp [hDhash]
    simp [createLUT, hvalid, hfind2]
  · have hf0 : st.files.filter (fun f => sha256 f.2 == sha256 bytes) = [] := by
      rw [List.filter_eq_nil_iff]
      intro f hf; simp [hfiles f hf]
    simp [List.filter_append, hf0]
  · simp

/-- Witness for C3: a valid 2×2×2 identity cube created twice on an empty
registry under different names. -/
theorem createLUT_idempotent_witness :
    ∃ st1 d1,
      createLUT (fun s => s) ⟨[], []⟩
        "LUT_3D_SIZE 2\n0 0 0\n1 0 0\n0 1 0\n1 1 0\n0 0 1\n1 0 1\n0 1 1\n1 1 1\n"
        ⟨"Name A", none, none, []⟩ "id-1" "t1" = .ok (st1, d1) ∧
      createLUT (fun s => s) st1
        "LUT_3D_SIZE 2\n0 0 0\n1 0 0\n0 1 0\n1 1 0\n0 0 1\n1 0 1\n0 1 1\n1 1 1\n"
        ⟨"Name B", none, none, []⟩ "id-2" "t2" = .ok (st1, d1) ∧
      d1.id = "id-1" ∧
      d1.hash = "LUT_3D_SIZE 2\n0 0 0\n1 0 0\n0 1 0\n1 1 0\n0 0 1\n1 0 1\n0 1 1\n1 1 1\n" ∧
      (st1.files.filter (fun f => f.2 ==
        "LUT_3D_SIZE 2\n0 0 0\n1 0 0\n0 1 0\n1 1 0\n0 0 1\n1 0 1\n0 1 1\n1 1 1\n")).length
        = 1 ∧
      st1.luts.length = ([] : List LUTDescriptor).length + 1 :=
  createLUT_idempotent (fun s => s) ⟨[], []⟩ _ _ _ "id-1" "id-2" "t1" "t2"
    (by decide) (by decide) (by decide) (by decide)

/-- C10.  The duplicate-by-hash check in `createLUT` does not exclude
soft-deleted entries: after creating a LUT and soft-deleting it, creating
the same bytes again returns the soft-deleted descriptor itself (same id,
same hash, `deletedAt` still set), writes no new file and mints no new
id. -/
theorem createLUT_returns_soft_deleted (sha256 : String → String) (st : LUTState)
    (bytes : String) (req1 req3 : LUTCreateRequest) (id1 id3 t1 tDel t3 : String)
    (hvalid : (validateLUT bytes).valid = true)
    (hhash : ∀ d ∈ st.luts, d.hash ≠ sha256 bytes)
    (hid : ∀ d ∈ st.luts, d.id ≠ id1)
    (hfiles : ∀ f ∈ st.files, sha256 f.2 ≠ sha256 bytes) :
    ∃ st1 d1 st2 d2,
      createLUT sha256 st bytes req1 id1 t1 = .ok (st1, d1) ∧
      deleteLUT st1 d1.id false tDel = .ok st2 ∧
      createLUT sha256 st2 bytes req3 id3 t3 = .ok (st2, d2) ∧
      d2.id = d1.id ∧ d2.hash = d1.hash ∧ d2.deletedAt = some tDel ∧
      (st2.files.filter (fun f => sha256 f.2 == sha256 bytes)).length = 1 ∧
      st2.luts.length = st.luts.length + 1 := by
  have hfind : st.luts.find? (fun l => l.hash == sha256 bytes) = none :=
    List.find?_eq_none.mpr (fun d hd => by simp [hhash d hd])
  have hfindid : st.luts.find? (fun l => l.id == id1) = none :=
    List.find?_eq_none.mpr (fun d hd => by simp [hid d hd])
  set D := newLUTDescriptor sha256 bytes req1 id1 t1 with hD
  have hDid : D.id = id1 := rfl
  have hDhash : D.hash = sha256 bytes := rfl
  have hany : st.luts.any (fun l => l.id == D.id) = false := by
    rw [List.any_eq_false]
    intro d hd
    simp [hDid, hid d hd]
  have hset : lutsSet st.luts D = st.luts ++ [D] := by
    simp [lutsSet, hany]
  set D' : LUTDescriptor := { D with deletedAt := some tDel, updatedAt := tDel } with hD'
  refine ⟨⟨st.luts ++ [D], st.files ++ [(lutStoragePath id1, bytes)]⟩, D,
    ⟨st.luts ++ [D'], st.files ++ [(lutStoragePath id1, bytes)]⟩, D',
    ?_, ?_, ?_, rfl, rfl, rfl, ?_, ?_⟩
  · simp [createLUT, hvalid, hfind, hset]
  · have hfindid1 : (st.luts ++ [D]).find? (fun l => l.id == id1) = some D := by
      rw [List.find?_append, hfindid]
      simp [hDid]
    have hmap : (st.luts ++ [D]).map (fun l =>
        if l.id == id1 then { l with deletedAt := some tDel, updatedAt := tDel }
        else l) = st.luts ++ [D'] := by
      rw [List.map_append]
      congr 1
      · calc st.luts.map (fun l =>
              if l.id == id1 then { l with deletedAt := some tDel, updatedAt := tDel }
              else l)
            = st.luts.map id :=
              List.map_congr_left (fun a ha => by simp [hid a ha])
          _ = st.luts := List.map_id _
      · simp [hDid, hD']
    show deleteLUT _ D.id false tDel = _
    unfold deleteLUT
    rw [hDid, hfindid1]
    simp only [Bool.false_eq_true, if_false, hmap]
  · have hfind3 : (st.luts ++ [D']).find? (fun l => l.hash == sha256 bytes) = some D' := by
      rw [List.find?_append, hfind]
      simp [hDhash]
    simp [createLUT, hvalid, hfind3]
  · have hf0 : st.files.filter (fun f => sha256 f.2 == sha256 bytes) = [] := by
      rw [List.filter_eq_nil_iff]
      intro f hf; simp [hfiles f hf]
    simp [List.filter_append, hf0]
  · simp

/-- Witness for C10: create, soft-delete, and re-create the identity cube
on an empty registry. -/
theorem createLUT_returns_soft_deleted_witness :
    ∃ st1 d1 st2 d2,
      createLUT (fun s => s) ⟨[], []⟩
        "LUT_3D_SIZE 2\n0 0 0\n1 0 0\n0 1 0\n1 1 0\n0 0 1\n1 0 1\n0 1 1\n1 1 1\n"
        ⟨"Name A", none, none, []⟩ "id-1" "t1" = .ok (st1, d1) ∧
      deleteLUT st1 d1.id false "t-del" = .ok st2 ∧
      createLUT (fun s => s) st2
        "LUT_3D_SIZE 2\n0 0 0\n1 0 0\n0 1 0\n1 1 0\n0 0 1\n1 0 1\n0 1 1\n1 1 1\n"
        ⟨"Name C", none, none, []⟩ "id-3" "t3" = .ok (st2, d2) ∧
      d2.id = d1.id ∧ d2.hash = d1.hash ∧ d2.deletedAt = some "t-del" ∧
      (st2.files.filter (fun f => f.2 ==
        "LUT_3D_SIZE 2\n0 0 0\n1 0 0\n0 1 0\n1 1 0\n0 0 1\n1 0 1\n0 1 1\n1 1 1\n")).length
        = 1 ∧
      st2.luts.length = ([] : List LUTDescriptor).length + 1 :=
  createLUT_returns_soft_deleted (fun s => s) ⟨[], []⟩ _ _ _ "id-1" "id-3" "t1" "t-del" "t3"
    (by decide) (by decide) (by decide) (by decide)

/-- C4 counterexample: for a declared input color space outside the
conversion table (`Unknown`), the built chain is *not* a pass-through —
it contains the generic fallback conversion stage
`colorspace=all=bt709:fast=0` before the LUT stage, and differs from the
chain built with no declared input space. -/
theorem buildLUTFilterGraph_unknown_not_passthrough :
    buildLUTFilterGraph { lutPath := "lut.cube", inputColorSpace := some .Unknown } =
      "colorspace=all=bt709:fast=0,lut3d='lut.cube'" ∧
    fallbackConversionFilter ∈ strSplitOn
      (buildLUTFilterGraph { lutPath := "lut.cube", inputColorSpace := some .Unknown }) "," ∧
    buildLUTFilterGraph { lutPath := "lut.cube", inputColorSpace := some .Unknown } ≠
      buildLUTFilterGraph { lutPath := "lut.cube" } := by
  decide

/-- C4 (amended).  For every full-strength filter-graph build whose
declared input color space is outside the known conversion table (and is
not the working space `Rec709`), the chain is the generic fallback
conversion stage `colorspace=all=bt709:fast=0` prepended to the chain
built without an input conversion — a default conversion stage rather
than an unconverted pass-through; the build still succeeds (total
function, no runtime error). -/
theorem buildLUTFilterGraph_unknown_fallback (lutPath : String) (cs : ColorSpace)
    (outCS : Option ColorSpace) (strength : Option ℚ) (interp : Option Interp)
    (htab : colorSpaceConversions cs .Rec709 = none) (hne : cs ≠ .Rec709)
    (hstr : ∀ s, strength = some s → 1 ≤ s) :
    buildLUTFilterGraph ⟨lutPath, some cs, outCS, strength, interp⟩ =
      fallbackConversionFilter ++ "," ++
        buildLUTFilterGraph ⟨lutPath, none, outCS, strength, interp⟩ := by
  have hnb : ∀ o : FFmpegFilterOptions, o.strength = strength →
      buildLUTFilterGraph o = nonBlendedChain o := by
    intro o ho
    cases hs : o.strength with
    | none => simp [buildLUTFilterGraph, hs]
    | some s =>
      have h1 : 1 ≤ s := hstr s (ho ▸ hs)
      simp [buildLUTFilterGraph, hs, not_lt.mpr h1]
  rw [hnb _ rfl, hnb _ rfl]
  simp [nonBlendedChain, inputConvFilters, hne, getColorSpaceConversionFilter, htab,
    joinSep, lutStage, outputConvFilters]

/-- Witness for the amended C4 at `Unknown` input with defaults. -/
theorem buildLUTFilterGraph_unknown_fallback_witness :
    buildLUTFilterGraph ⟨"lut.cube", some .Unknown, none, none, none⟩ =
      fallbackConversionFilter ++ "," ++
        buildLUTFilterGraph ⟨"lut.cube", none, none, none, none⟩ :=
  buildLUTFilterGraph_unknown_fallback "lut.cube" .Unknown none none none
    (by decide) (by decide) (fun s h => by cases h)

/-- C5.  Strength handling of the filter-graph builder: `strength` unset
and `strength = 1.0` build the same chain with no split/blend; a partial
strength `0 < s < 1` builds exactly the split/LUT/cross-blend graph at
opacity `s`; at `s = 0.5` the chain contains exactly one `split=` and one
`blend=` stage with `all_opacity=0.5`, while the full-strength chain
contains neither. -/
theorem buildLUTFilterGraph_strength_claims :
    (∀ o : FFmpegFilterOptions,
      buildLUTFilterGraph { o with strength := none } =
        buildLUTFilterGraph { o with strength := some 1 }) ∧
    (∀ (o : FFmpegFilterOptions) (s : ℚ), o.strength = some s → 0 < s → s < 1 →
      buildLUTFilterGraph o =
        "[0:v]split=2[original][lut];[lut]lut3d='" ++ o.lutPath ++ "'" ++
          (match o.interpolation with
           | some i => ":interp=" ++ i.toStr
           | none => "") ++
          "[lutted];[original][lutted]blend=all_mode=normal:all_opacity=" ++
          jsNumToString s) ∧
    (countSubstrOccur
        (buildLUTFilterGraph { lutPath := "lut.cube", strength := some (1/2 : ℚ) })
        "split=" = 1 ∧
      countSubstrOccur
        (buildLUTFilterGraph { lutPath := "lut.cube", strength := some (1/2 : ℚ) })
        "blend=" = 1 ∧
      strContainsSub
        (buildLUTFilterGraph { lutPath := "lut.cube", strength := some (1/2 : ℚ) })
        "all_opacity=0.5" = true ∧
      countSubstrOccur (buildLUTFilterGraph { lutPath := "lut.cube" }) "split=" = 0 ∧
      countSubstrOccur (buildLUTFilterGraph { lutPath := "lut.cube" }) "blend=" = 0) := by
  have h12 : (1/2 : ℚ) = Rat.mk' 1 2 := by
    rw [Rat.mk'_eq_divInt]
    norm_num [Rat.divInt_eq_div]
  refine ⟨?_, ?_, ?_⟩
  · rintro ⟨p, ics, ocs, str, itp⟩
    simp [buildLUTFilterGraph, nonBlendedChain, inputConvFilters, outputConvFilters,
      lutStage]
  · intro o s hs h0 h1
    simp [buildLUTFilterGraph, hs, h1, buildBlendedLUTFilter, jsOrQ, ne_of_gt h0]
  · rw [h12]
    refine ⟨by decide, by decide, by decide, by decide, by decide⟩

/-- Witness for C5: the two full-strength chains coincide for a concrete
option set, and the blended equation instantiated at strength `1/2`. -/
theorem buildLUTFilterGraph_strength_claims_witness :
    buildLUTFilterGraph { lutPath := "a.cube", strength := none } =
      buildLUTFilterGraph { lutPath := "a.cube", strength := some 1 } ∧
    buildLUTFilterGraph { lutPath := "a.cube", strength := some (1/2 : ℚ) } =
      "[0:v]split=2[original][lut];[lut]lut3d='a.cube'" ++
        "[lutted];[original][lutted]blend=all_mode=normal:all_opacity=" ++
        jsNumToString (1/2 : ℚ) := by
  constructor
  · exact buildLUTFilterGraph_strength_claims.1 { lutPath := "a.cube" }
  · simpa using buildLUTFilterGraph_strength_claims.2.1
      { lutPath := "a.cube", strength := some (1/2 : ℚ) } (1/2) rfl
      (by norm_num) (by norm_num)

/-- Every first element emitted from accumulator `last` is at least
`min last 100` (the next emission exceeds `last` before capping). -/
theorem runFFmpegEmits_head_ge (total : ℚ) :
    ∀ (lines : List String) (last x : ℚ),
      (runFFmpegEmits total lines last).head? = some x → min last 100 ≤ x := by
  intro lines
  induction lines with
  | nil => intro last x h; simp [runFFmpegEmits] at h
  | cons line rest ih =>
    intro last x h
    rw [runFFmpegEmits] at h
    cases htime : (parseFFmpegProgress line).time with
    | none =>
      rw [htime] at h
      exact ih last x h
    | some t =>
      rw [htime] at h
      dsimp only at h
      by_cases hpos : 0 < total
      · rw [if_pos hpos] at h
        cases hsec : ffmpegTimeSeconds t with
        | none =>
          rw [hsec] at h
          exact ih last x h
        | some cur =>
          rw [hsec] at h
          dsimp only at h
          by_cases hgt : last < cur / total * 100
          · rw [if_pos hgt] at h
            have hx : x = min (cur / total * 100) 100 := by simpa using h.symm
            rw [hx]
            exact min_le_min (le_of_lt hgt) le_rfl
          · rw [if_neg hgt] at h
            exact ih last x h
      · rw [if_neg hpos] at h
        exact ih last x h

/-- The emitted sequence is non-decreasing from any accumulator. -/
theorem runFFmpegEmits_chain (total : ℚ) :
    ∀ (lines : List String) (last : ℚ),
      List.Chain' (· ≤ ·) (runFFmpegEmits total lines last) := by
  intro lines
  induction lines with
  | nil => intro last; simp [runFFmpegEmits]
  | cons line rest ih =>
    intro last
    rw [runFFmpegEmits]
    cases htime : (parseFFmpegProgress line).time with
    | none => exact ih last
    | some t =>
      dsimp only
      by_cases hpos : 0 < total
      · rw [if_pos hpos]
        cases hsec : ffmpegTimeSeconds t with
        | none => exact ih last
        | some cur =>
          dsimp only
          by_cases hgt : last < cur / total * 100
          · rw [if_pos hgt]
            refine List.chain'_cons'.mpr ⟨?_, ih _⟩
            intro y hy
            have hge := runFFmpegEmits_head_ge total rest (cur / total * 100) y hy
            exact le_trans (min_le_min le_rfl le_rfl) hge
          · rw [if_neg hgt]
            exact ih last
      · rw [if_neg hpos]
        exact ih last

/-- C6.  Progress monotonicity: for every sequence of transcoder
diagnostic lines (including out-of-order or repeated time tokens) and
every positive total duration, the sequence of percentages handed to the
progress callback by `runFFmpeg` is non-decreasing. -/
theorem runFFmpeg_progress_monotone (totalDuration : ℚ) (lines : List String)
    (_hpos : 0 < totalDuration) :
    List.Chain' (· ≤ ·) (runFFmpegProgressSeq totalDuration lines) :=
  runFFmpegEmits_chain totalDuration lines 0

/-- Witness for C6: a run over out-of-order and repeated time tokens. -/
theorem runFFmpeg_progress_monotone_witness :
    List.Chain' (· ≤ ·) (runFFmpegProgressSeq 10
      ["frame=1 fps=24 time=00:00:05.00 speed=1.0x",
       "frame=2 fps=24 time=00:00:03.00 speed=1.0x",
       "frame=3 fps=24 time=00:00:05.00 speed=1.0x",
       "frame=4 fps=24 time=00:00:07.00 speed=1.0x"]) :=
  runFFmpeg_progress_monotone 10 _ (by norm_num)

/-- C7 counterexample: a successful remote-mode job writes the status
sequence `pending, processing, completed`, whose step
`processing → completed` is not a transition of the spec's state machine
`pending → processing → uploading → completed` (with `failed` from
non-terminal states, stuttering allowed) — the `uploading` status is
skipped in remote processing mode. -/
theorem processJobWrites_remote_skips_uploading :
    (processJobWrites true "lut-1" .remote (.ok ())
        ⟨.ok (), .ok (), .ok (), .ok ()⟩).map Prod.fst =
      [.pending, .processing, .completed] ∧
    ¬ List.Chain' (fun a b => specStatusEdge a b = true)
      ((processJobWrites true "lut-1" .remote (.ok ())
        ⟨.ok (), .ok (), .ok (), .ok ()⟩).map Prod.fst) := by
  refine ⟨rfl, ?_⟩
  have hmap : (processJobWrites true "lut-1" .remote (.ok ())
      ⟨.ok (), .ok (), .ok (), .ok ()⟩).map Prod.fst =
      [.pending, .processing, .completed] := rfl
  rw [hmap]
  simp [List.chain'_cons, specStatusEdge]

/-- C7 (amended).  Every job's status-write sequence follows the state
machine `pending → processing → uploading → completed` extended with the
remote-mode shortcut `processing → completed`, with `failed` reachable
from any non-terminal state (and repeated writes of the current status
allowed); and whenever a pipeline stage raises, the job record ends in
`failed` carrying that stage's error message, while an error-free run
ends in `completed`. -/
theorem processJobWrites_follows_machine (lutFound : Bool) (lutId : String)
    (mode : ProcessingMode) (remote : Except String Unit) (localSteps : LocalSteps) :
    List.Chain' (fun a b => codeStatusEdge a b = true)
      ((processJobWrites lutFound lutId mode remote localSteps).map Prod.fst) ∧
    ((processJobWrites lutFound lutId mode remote localSteps).head? =
      some (.pending, none)) ∧
    (∀ e, jobFirstFailure lutFound lutId mode remote localSteps = some e →
      (processJobWrites lutFound lutId mode remote localSteps).getLast? =
        some (.failed, some e)) ∧
    (jobFirstFailure lutFound lutId mode remote localSteps = none →
      (processJobWrites lutFound lutId mode remote localSteps).getLast? =
        some (.completed, none)) := by
  obtain ⟨d, p, a, u⟩ := localSteps
  cases lutFound <;> cases mode <;>
    cases remote <;> cases d <;> cases p <;> cases a <;> cases u <;>
    simp [processJobWrites, jobFirstFailure, failWrites, codeStatusEdge, specStatusEdge]

/-- Witness for C7 (amended): a local-mode job whose transcode stage
fails ends `failed` with that error, and an error-free local job ends
`completed`. -/
theorem processJobWrites_follows_machine_witness :
    (processJobWrites true "lut-1" .local (.ok ())
        ⟨.ok (), .ok (), .error "ffmpeg exited 1", .ok ()⟩).getLast? =
      some (.failed, some "ffmpeg exited 1") ∧
    (processJobWrites true "lut-1" .local (.ok ())
        ⟨.ok (), .ok (), .ok (), .ok ()⟩).getLast? = some (.completed, none) ∧
    List.Chain' (fun a b => codeStatusEdge a b = true)
      ((processJobWrites true "lut-1" .local (.ok ())
        ⟨.ok (), .ok (), .error "ffmpeg exited 1", .ok ()⟩).map Prod.fst) := by
  refine ⟨?_, ?_, ?_⟩
  · exact (processJobWrites_follows_machine true "lut-1" .local (.ok ())
      ⟨.ok (), .ok (), .error "ffmpeg exited 1", .ok ()⟩).2.2.1 "ffmpeg exited 1" (by decide)
  · exact (processJobWrites_follows_machine true "lut-1" .local (.ok ())
      ⟨.ok (), .ok (), .ok (), .ok ()⟩).2.2.2 (by decide)
  · exact (processJobWrites_follows_machine true "lut-1" .local (.ok ())
      ⟨.ok (), .ok (), .error "ffmpeg exited 1", .ok ()⟩).1

/-- The loop of `uploadMedia` agrees with the spec-shaped recursion when
the offset and total-uploaded accumulators coincide and the remaining
plan fits in the file. -/
theorem uploadMediaGo_eq_spec (net : Nat → FetchOutcome) (fileSize : Nat) :
    ∀ (plan : List (String × Nat)) (i offset : Nat),
      (∀ p ∈ plan, 0 < p.2) →
      offset + (plan.map Prod.snd).sum ≤ fileSize →
      uploadMediaGo net fileSize plan i offset offset =
        uploadMediaSpec.go net fileSize plan i offset := by
  intro plan
  induction plan with
  | nil => intro i offset _ _; rfl
  | cons hd rest ih =>
    obtain ⟨url, sz⟩ := hd
    intro i offset hpos hsum
    have hszpos : 0 < sz := hpos (url, sz) (by simp)
    have hoff : offset + sz + ((rest.map Prod.snd).sum) ≤ fileSize := by
      simp only [List.map_cons, List.sum_cons] at hsum
      omega
    have hbtr : min sz (fileSize - offset) = sz := Nat.min_eq_left (by omega)
    simp only [uploadMediaGo, uploadMediaSpec.go, hbtr]
    rw [if_neg (by omega)]
    cases hcf : chunkFailure (net i) with
    | some e => rfl
    | none =>
      simp only []
      rw [ih (i + 1) (offset + sz) (fun p hp => hpos p (by simp [hp])) (by omega)]

/-- C8.  The chunked upload follows the destination's negotiated plan
exactly: given a plan of positive chunk sizes fitting the file, each
chunk is read and transferred at the offset equal to the sum of all
prior plan sizes and in exactly the plan's size, the percentage reported
after each chunk is cumulative bytes over file size, and a chunk
failure aborts the upload propagating the destination's error detail —
i.e. `uploadMedia` coincides with the spec-shaped `uploadMediaSpec`. -/
theorem uploadMedia_follows_plan (net : Nat → FetchOutcome)
    (uploadUrls : List (String × Nat)) (fileSize : Nat)
    (hpos : ∀ p ∈ uploadUrls, 0 < p.2)
    (hsum : (uploadUrls.map Prod.snd).sum ≤ fileSize) :
    uploadMedia net uploadUrls fileSize = uploadMediaSpec net uploadUrls fileSize := by
  have h := uploadMediaGo_eq_spec net fileSize uploadUrls 0 0 hpos (by simpa using hsum)
  simpa [uploadMedia, uploadMediaSpec] using h

/-- Witness for C8: a two-chunk plan `[3, 2]` over a 5-byte file, all
transfers succeeding, and the same plan with the second transfer
failing. -/
theorem uploadMedia_follows_plan_witness :
    uploadMedia (fun _ => .response true 200 "") [("u1", 3), ("u2", 2)] 5 =
      uploadMediaSpec (fun _ => .response true 200 "") [("u1", 3), ("u2", 2)] 5 ∧
    uploadMedia (fun i => if i = 1 then .response false 403 "denied" else
        .response true 200 "") [("u1", 3), ("u2", 2)] 5 =
      uploadMediaSpec (fun i => if i = 1 then .response false 403 "denied" else
        .response true 200 "") [("u1", 3), ("u2", 2)] 5 :=
  ⟨uploadMedia_follows_plan _ _ _ (by decide) (by decide),
   uploadMedia_follows_plan _ _ _ (by decide) (by decide)⟩

/-- C9.  Best-effort comment isolation: when transcode and upload
succeed, a failing `postComment` is caught — `uploadProcessedVideo` (and
`processVideoRemotely`) still return the upload result, and the job still
ends `completed`, not `failed`. -/
theorem comment_failure_is_isolated (e fileId lutId : String) :
    uploadProcessedVideo (.ok ()) true (.ok ()) (.ok ()) (.error e) fileId =
      .ok (fileId, fileId) ∧
    processVideoRemotely (.ok ()) true (.ok ()) (.ok ()) (.error e) fileId =
      .ok (fileId, fileId) ∧
    (processJobWrites true lutId .local (.ok ())
      ⟨.ok (), .ok (), .ok (),
        (uploadProcessedVideo (.ok ()) true (.ok ()) (.ok ()) (.error e) fileId).map
          (fun _ => ())⟩).getLast? = some (.completed, none) ∧
    (processJobWrites true lutId .remote
      ((processVideoRemotely (.ok ()) true (.ok ()) (.ok ()) (.error e) fileId).map
        (fun _ => ()))
      ⟨.ok (), .ok (), .ok (), .ok ()⟩).getLast? = some (.completed, none) := by
  exact ⟨rfl, rfl, rfl, rfl⟩

end FrameLut
